import Mathlib

/-!
Shallow embedding of `src/app.py` (School Mini-Maps, a Streamlit app).

The app keeps an in-memory list of annotation records (Python dicts with
optional keys) in `st.session_state.labels`, offers color helpers
(`hex_to_rgb`, `rgba_from_hex`), an SVG icon colorizer (`colorize_svg`),
a map-render loop that emits one folium marker per record with a per-record
try/except (`create_folium_map`), and button handlers that append, update
in place, and pop records.

Conventions of the embedding:
- Python dicts holding annotation records become a structure whose fields are
  `Option`-valued; a missing key is `none`, `dict.get(k, d)` is `Option.getD`,
  and `dict.pop(k, None)` sets the field to `none`.
- Python floats are modelled as `ℚ` (the program does no float-specific
  arithmetic; all constants involved are exact decimals).
- A Python exception is modelled as `none` / `Except.error`: `hex_to_rgb`
  raising `ValueError` on a non-hex digit is `none`; `list.pop` raising
  `IndexError` is `Except.error "IndexError"`.
- Strings are modelled exactly; the ASCII apostrophe inside HTML/SVG string
  literals is written with the escape `\x27`.
-/

/-- One hexadecimal digit's value, as accepted by Python's `int(s, 16)`. -/
def hexDigitVal (c : Char) : Option ℕ :=
  if '0' ≤ c ∧ c ≤ '9' then some (c.toNat - '0'.toNat)
  else if 'a' ≤ c ∧ c ≤ 'f' then some (c.toNat - 'a'.toNat + 10)
  else if 'A' ≤ c ∧ c ≤ 'F' then some (c.toNat - 'A'.toNat + 10)
  else none

/-- Python `int(s, 16)` restricted to plain hex-digit strings: fails on the
empty string and on any non-hex-digit character.  (Python also tolerates
surrounding whitespace, a sign, and an `0x` prefix; no call site of
`hex_to_rgb` depends on those forms and they are not modelled.) -/
def pyIntHex (s : String) : Option ℕ :=
  if s.data = [] then none
  else s.data.foldl (fun acc c =>
    match acc, hexDigitVal c with
    | some n, some d => some (n * 16 + d)
    | _, _ => none) (some 0)

/-- Python slice `s[i:j]` on a string (lenient on out-of-range bounds). -/
def pySlice (s : String) (i j : ℕ) : String :=
  ⟨(s.data.drop i).take (j - i)⟩

/-- Python `s.lstrip("#")`: drop every leading `#`. -/
def lstripHash (s : String) : String :=
  ⟨s.data.dropWhile (fun c => c = '#')⟩

/-- `hex_to_rgb` from `src/app.py` lines 57-59:
`h = (h or "").lstrip("#") or "FFFFFF"` then
`tuple(int(h[i:i+2], 16) for i in (0, 2, 4))`.
`none` models the `ValueError` that `int(_, 16)` raises on a slice that is
empty or contains a non-hex-digit character. -/
def hex_to_rgb (h : String) : Option (ℕ × ℕ × ℕ) :=
  let h1 := lstripHash h
  let h2 := if h1 = "" then "FFFFFF" else h1
  match pyIntHex (pySlice h2 0 2), pyIntHex (pySlice h2 2 4), pyIntHex (pySlice h2 4 6) with
  | some r, some g, some b => some (r, g, b)
  | _, _, _ => none

/-- The clamp `max(0.0, min(1.0, float(alpha)))` from `rgba_from_hex`,
written with decidable ifs so that it evaluates inside the kernel;
`clamp01_eq_max_min` below checks it against the literal `max`/`min` form. -/
def clamp01 (a : ℚ) : ℚ := if a < 0 then 0 else if 1 < a then 1 else a

/-- Decimal digits of the fraction `rem / den` (with `rem < den`), produced by
long division, as Python's `repr` prints the fractional part of a terminating
decimal; `fuel` bounds the expansion. -/
def decDigitsNat : ℕ → ℕ → ℕ → String
  | 0, _, _ => ""
  | fuel + 1, rem, den =>
    if rem = 0 then ""
    else
      let r10 := rem * 10
      toString (r10 / den) ++ decDigitsNat fuel (r10 % den) den

/-- Python `repr` of a nonnegative float with a terminating decimal expansion
(`1.0` prints as `"1.0"`, `0.5` as `"0.5"`), as interpolated by the f-string
in `rgba_from_hex`; it is applied only to clamped values in `[0, 1]`. -/
def pyFloatRepr (q : ℚ) : String :=
  let n := q.num.toNat
  let d := q.den
  if n % d = 0 then toString (n / d) ++ ".0"
  else toString (n / d) ++ "." ++ decDigitsNat 30 (n % d) d

/-- `rgba_from_hex` from `src/app.py` lines 61-64:
`r, g, b = hex_to_rgb(hex_color or "#FFFFFF")`,
`a = max(0.0, min(1.0, float(alpha)))`, result `f"rgba({r},{g},{b},{a})"`.
`none` models the `ValueError` propagating out of `hex_to_rgb`. -/
def rgba_from_hex (hex_color : String) (alpha : ℚ) : Option String :=
  let hc := if hex_color = "" then "#FFFFFF" else hex_color
  match hex_to_rgb hc with
  | none => none
  | some (r, g, b) =>
    let a := pyFloatRepr (clamp01 alpha)
    some ("rgba(" ++ toString r ++ "," ++ toString g ++ "," ++ toString b ++ "," ++ a ++ ")")

/-- One annotation record of `st.session_state.labels`: a Python dict whose
keys are optional.  A missing key is `none`; `dict.get(k, d)` is
`Option.getD`; `dict.pop(k, None)` sets the field to `none`. -/
structure Label where
  lat : Option ℚ := none
  lon : Option ℚ := none
  text : Option String := none
  style : Option String := none
  size : Option ℕ := none
  color : Option String := none
  bg_hex : Option String := none
  bg_alpha : Option ℚ := none
  fillcolor : Option String := none
  svg : Option String := none
  base_svg_key : Option String := none
deriving DecidableEq, Inhabited

/-- The `ICON_SVGS` dict of `src/app.py` lines 139-145; `none` models the
`KeyError` a lookup of an unknown key raises.  The ASCII apostrophe of the
source is written `\x27`. -/
def ICON_SVGS : String → Option String
  | "Entrance" => some "<svg xmlns=\x27http://www.w3.org/2000/svg\x27 viewBox=\x270 0 32 32\x27><path d=\x27M2 4h18v24H2z\x27/><path d=\x27M20 16H8l4-4-2-2-8 8 8 8 2-2-4-4h12z\x27/></svg>"
  | "Parking" => some "<svg xmlns=\x27http://www.w3.org/2000/svg\x27 viewBox=\x270 0 32 32\x27><path d=\x27M6 4h12a8 8 0 010 16H6z\x27/><rect x=\x276\x27 y=\x2720\x27 width=\x276\x27 height=\x278\x27/></svg>"
  | "Info" => some "<svg xmlns=\x27http://www.w3.org/2000/svg\x27 viewBox=\x270 0 32 32\x27><circle cx=\x2716\x27 cy=\x2716\x27 r=\x2714\x27/><rect x=\x2715\x27 y=\x2712\x27 width=\x272\x27 height=\x2712\x27/><circle cx=\x2716\x27 cy=\x278\x27 r=\x272\x27/></svg>"
  | "Caution" => some "<svg xmlns=\x27http://www.w3.org/2000/svg\x27 viewBox=\x270 0 32 32\x27><path d=\x27M16 4l14 24H2z\x27/><rect x=\x2715\x27 y=\x2712\x27 width=\x272\x27 height=\x278\x27/><rect x=\x2715\x27 y=\x2722\x27 width=\x272\x27 height=\x272\x27/></svg>"
  | "Office" => some "<svg xmlns=\x27http://www.w3.org/2000/svg\x27 viewBox=\x270 0 32 32\x27><rect x=\x274\x27 y=\x276\x27 width=\x2724\x27 height=\x2720\x27/><rect x=\x278\x27 y=\x2710\x27 width=\x276\x27 height=\x276\x27/><rect x=\x2718\x27 y=\x2710\x27 width=\x276\x27 height=\x276\x27/></svg>"
  | _ => none

/-- Python `str.replace` (all non-overlapping occurrences, leftmost first)
on character lists; `fuel` bounds the scan and is instantiated with the
string's length, which suffices for the nonempty patterns the app uses. -/
def pyReplaceAux : ℕ → List Char → List Char → List Char → List Char
  | 0, s, _, _ => s
  | fuel + 1, s, pat, rep =>
    match s with
    | [] => []
    | c :: rest =>
      if pat ≠ [] ∧ s.take pat.length = pat then
        rep ++ pyReplaceAux fuel (s.drop pat.length) pat rep
      else
        c :: pyReplaceAux fuel rest pat rep

/-- Python `s.replace(pat, rep)`, kernel-computable (the library
`String.replace` is defined by well-founded recursion and does not reduce). -/
def pyStrReplace (s pat rep : String) : String :=
  ⟨pyReplaceAux s.data.length s.data pat.data rep.data⟩

/-- `colorize_svg` from `src/app.py` lines 147-151: inject a `fill` attribute
into every `path`, `circle` and `rect` element. -/
def colorize_svg (svg : String) (fill : String) : String :=
  pyStrReplace
    (pyStrReplace (pyStrReplace svg "<path" ("<path fill=\x27" ++ fill ++ "\x27"))
      "<circle" ("<circle fill=\x27" ++ fill ++ "\x27"))
    "<rect" ("<rect fill=\x27" ++ fill ++ "\x27")

/-- The session state the claims touch: the annotation list, the last click,
and the map-center coordinate (lines 156-163 guarantee `address_coords` is
always initialised, so it is a total field). -/
structure AppState where
  labels : List Label
  last_clicked : Option (ℚ × ℚ)
  address_coords : ℚ × ℚ
  selected_label_idx : ℕ
deriving DecidableEq

/-- The fresh text label appended by the click handler, `src/app.py` lines
302-312 (`0.8` is `mkRat 4 5`). -/
def newClickTextLabel (latc lonc : ℚ) : Label :=
  { lat := some latc, lon := some lonc, text := some "New Label",
    style := some "Label", size := some 16, color := some "#111",
    bg_hex := some "#FFFFFF", bg_alpha := some (mkRat 4 5) }

/-- The `<div>` wrapper around a colorized icon SVG, lines 318 and 379. -/
def iconHtml (iconSize : ℕ) (svg : String) : String :=
  "<div style=\x27width:" ++ toString iconSize ++ "px;height:" ++ toString iconSize ++
    "px\x27>" ++ svg ++ "</div>"

/-- The fresh icon record appended by the click handler, lines 313-327;
`svgRaw` is the `ICON_SVGS` entry for `iconName`. -/
def newClickIcon (latc lonc : ℚ) (iconName : String) (iconSize : ℕ)
    (iconColor : String) (svgRaw : String) : Label :=
  { lat := some latc, lon := some lonc, style := some "SVG_ICON",
    size := some iconSize, svg := some (iconHtml iconSize (colorize_svg svgRaw iconColor)),
    base_svg_key := some iconName, color := some iconColor }

/-- The `last_clicked` handler in text-label mode (`add_mode == "label"`),
lines 297-312: record the click and append a fresh text label. -/
def lastClickedAddLabel (s : AppState) (latc lonc : ℚ) : AppState :=
  { s with last_clicked := some (latc, lonc),
           labels := s.labels ++ [newClickTextLabel latc lonc] }

/-- The `last_clicked` handler in icon mode, lines 313-327: record the click
and append a fresh icon record; `none` models the `KeyError` of
`ICON_SVGS[icon_name]` on an unknown icon name. -/
def lastClickedAddIcon (s : AppState) (latc lonc : ℚ) (iconName : String)
    (iconSize : ℕ) (iconColor : String) : Option AppState :=
  match ICON_SVGS iconName with
  | some svgRaw =>
    some { s with last_clicked := some (latc, lonc),
                  labels := s.labels ++ [newClickIcon latc lonc iconName iconSize iconColor svgRaw] }
  | none => none

/-- The "Apply text changes" button handler, `src/app.py` lines 394-407:
overwrite `text`, `style`, `size`, `color` with the form values, then either
set `fillcolor` and pop `bg_hex`/`bg_alpha` (new style `Filled (orange)`) or
set `bg_hex`/`bg_alpha` and pop `fillcolor` (any other new style). -/
def applyTextChanges (lab : Label) (newText newStyle : String) (newSize : ℕ)
    (newTextColor newFillColor newBgHex : String) (newBgAlpha : ℚ) : Label :=
  let lab1 := { lab with text := some newText, style := some newStyle,
                         size := some newSize, color := some newTextColor }
  if newStyle = "Filled (orange)" then
    { lab1 with fillcolor := some newFillColor, bg_hex := none, bg_alpha := none }
  else
    { lab1 with bg_hex := some newBgHex, bg_alpha := some newBgAlpha, fillcolor := none }

/-- Python's resolution of a possibly negative sequence index against a
length: a negative index counts from the end. -/
def pyResolve (len : ℕ) (i : ℤ) : ℤ :=
  if i < 0 then i + len else i

/-- Python's index check for `list[i]` / `list.pop(i)`: the resolved
nonnegative position, or `none` (an `IndexError`) when out of bounds. -/
def pyIndex (len : ℕ) (i : ℤ) : Option ℕ :=
  if 0 ≤ pyResolve len i ∧ pyResolve len i < (len : ℤ) then
    some (pyResolve len i).toNat
  else none

/-- Python `list.pop(i)` as used by the delete handler, line 413: remove and
return the element at (Python-resolved) index `i`, or raise `IndexError`. -/
def pyPop {α : Type} (xs : List α) (i : ℤ) : Except String (List α × α) :=
  match pyIndex xs.length i with
  | none => Except.error "IndexError"
  | some j =>
    match xs[j]? with
    | some a => Except.ok (xs.eraseIdx j, a)
    | none => Except.error "IndexError"

/-- Python `list[i]` as used by the edit handler, line 367 (the subscript that
resolves the record an update mutates): raises `IndexError` out of bounds. -/
def pyGetItem {α : Type} (xs : List α) (i : ℤ) : Except String α :=
  match pyIndex xs.length i with
  | none => Except.error "IndexError"
  | some j =>
    match xs[j]? with
    | some a => Except.ok a
    | none => Except.error "IndexError"

/-- A folium marker emitted for one annotation record: position, the
`draggable=True` flag, and the `DivIcon` html. -/
structure Marker where
  lat : ℚ
  lon : ℚ
  draggable : Bool
  html : String
deriving DecidableEq

/-- The `html_style` string computed for a text label in the render loop,
lines 270-277: the `Label` branch needs the rgba conversion (which can raise,
hence `none`); `Outlined` and the fallback (`Filled (orange)`) branches are
pure string assembly. -/
def textHtmlStyle (lab : Label) : Option String :=
  let style := lab.style.getD "Label"
  let size := lab.size.getD 16
  let color := lab.color.getD "#111"
  if style = "Label" then
    match rgba_from_hex (lab.bg_hex.getD "#FFFFFF") (lab.bg_alpha.getD (mkRat 4 5)) with
    | some bg =>
      some ("font-weight:700;font-size:" ++ toString size ++ "px;color:" ++ color ++
        ";background:" ++ bg ++ ";padding:2px 6px;border:1px solid " ++ color ++
        ";border-radius:3px")
    | none => none
  else if style = "Outlined" then
    some ("font-weight:800;font-size:" ++ toString size ++ "px;color:" ++ color ++
      ";-webkit-text-stroke:2px #fff;text-shadow:0 0 2px #fff")
  else
    some ("font-weight:800;font-size:" ++ toString size ++ "px;color:" ++ color ++
      ";border:2px solid " ++ color ++ ";background:" ++ lab.fillcolor.getD "#f6a500" ++
      ";padding:4px 8px;border-radius:3px")

/-- The `<div>` wrapper of line 279. -/
def textDivHtml (htmlStyle : String) (text : String) : String :=
  "<div style=\x27" ++ htmlStyle ++ "\x27>" ++ text ++ "</div>"

/-- The body of the per-label `try` block of the render loop, lines 262-280:
build the marker for one record, or fail as the Python code would (a missing
required key raises `KeyError`; an invalid stored `bg_hex` raises `ValueError`
inside `rgba_from_hex`).  Error strings are schematic: the claims do not
depend on Python's exception message text. -/
def renderLabel (lab : Label) : Except String Marker :=
  if lab.style = some "SVG_ICON" then
    match lab.lat, lab.lon, lab.svg with
    | some la, some lo, some sv => Except.ok ⟨la, lo, true, sv⟩
    | _, _, _ => Except.error "KeyError"
  else
    match textHtmlStyle lab with
    | none => Except.error "ValueError"
    | some hs =>
      match lab.text, lab.lat, lab.lon with
      | some t, some la, some lo => Except.ok ⟨la, lo, true, textDivHtml hs t⟩
      | _, _, _ => Except.error "KeyError"

/-- One user-visible effect of the render loop: a marker added to the map, or
the `st.warning` of the `except` arm. -/
inductive REvent where
  | marker (m : Marker)
  | warning (msg : String)
deriving DecidableEq

/-- The render loop `for idx, lab in enumerate(st.session_state.labels)` of
lines 261-282, with its per-record `try`/`except`: each record yields either
its marker or a warning naming its index, and the loop always continues. -/
def renderEventsFrom (idx : ℕ) : List Label → List REvent
  | [] => []
  | lab :: rest =>
    (match renderLabel lab with
     | Except.ok m => REvent.marker m
     | Except.error e =>
       REvent.warning ("Error rendering label " ++ toString idx ++ ": " ++ e ++ ". Skipping...")) ::
    renderEventsFrom (idx + 1) rest

/-- `create_folium_map`, lines 234-284, restricted to its annotation part: the
function reads `st.session_state.labels` and assigns to no session state, so
in the explicit-state embedding it returns the events of the label loop and
its state argument unchanged. -/
def create_folium_map (s : AppState) : List REvent × AppState :=
  (renderEventsFrom 0 s.labels, s)

/-- The possible outcomes of the external geocoding lookup inside
`geocode_address`, lines 185-199: a location with coordinates, a lookup that
returns nothing, or one of the two caught exception groups. -/
inductive GeoOutcome where
  | found (lat lon : ℚ)
  | notFound
  | serviceError (msg : String)
  | otherError (msg : String)
deriving DecidableEq

/-- `geocode_address`, lines 185-199: return the coordinates when the lookup
finds a location; return `(None, None)` otherwise, surfacing an `st.error`
message when the lookup raised (both `except` arms catch and return). -/
def geocode_address : GeoOutcome → Option (ℚ × ℚ) × List String
  | GeoOutcome.found la lo => (some (la, lo), [])
  | GeoOutcome.notFound => (none, [])
  | GeoOutcome.serviceError m => (none, ["Geocoding service error: " ++ m])
  | GeoOutcome.otherError m => (none, ["An unexpected error occurred: " ++ m])

/-- The `search_button` handler, lines 201-210: store the coordinates on
success; on failure show `st.error` and keep the previous `address_coords`
(the inner `if "address_coords" not in st.session_state` guard is dead, since
lines 162-163 always initialise it).  The second component collects the
user-visible messages of the attempt. -/
def searchButtonStep (s : AppState) (g : GeoOutcome) : AppState × List String :=
  let r := geocode_address g
  match r.1 with
  | some c => ({ s with address_coords := c }, r.2)
  | none => (s, r.2 ++ ["Could not find address. Showing last known location."])

/-- The `HiResPrint` macro element, lines 67-136: the export control's
constructor arguments. -/
structure HiResPrint where
  file_name : String
  position : String
deriving DecidableEq

/-- The one `HiResPrint` the app installs, line 290:
`HiResPrint(file_name="map_export_2x")` with the default position. -/
def appExportControl : HiResPrint :=
  { file_name := "map_export_2x", position := "topleft" }

/-- The filename the app supplies to the PNG export collaborator for a given
selected site name: line 290 passes the constant `"map_export_2x"` and never
consults the selection, so the function ignores its argument. -/
def exportFileNameFor (_siteName : String) : String :=
  appExportControl.file_name

/-- Modelled from the spec: the filename derivation §6 describes — "derived
from the selected catalog record's name with spaces replaced by underscores".
Stated only to compare against `exportFileNameFor`, which embeds the code. -/
def specFileNameFor (siteName : String) : String :=
  pyStrReplace siteName " " "_"

/-- The mutual-exclusivity invariant of a text-label record: `Filled (orange)`
records carry `fillcolor` and no `bg_hex`/`bg_alpha`; `Label`/`Outlined`
records carry `bg_hex` and `bg_alpha` and no `fillcolor`. -/
def textLabelInvariant (lab : Label) : Bool :=
  (if lab.style.getD "Label" = "Filled (orange)" then
    lab.fillcolor.isSome && lab.bg_hex.isNone && lab.bg_alpha.isNone
  else true) &&
  (if lab.style.getD "Label" = "Label" ∨ lab.style.getD "Label" = "Outlined" then
    lab.bg_hex.isSome && lab.bg_alpha.isSome && lab.fillcolor.isNone
  else true)

/-- Well-formedness of a stored record, as the render loop needs it: position,
content, and (for `Label`-styled text) a parseable background hex.  Records
created by the app's own handlers satisfy it. -/
def wfLabel (lab : Label) : Bool :=
  if lab.style = some "SVG_ICON" then
    lab.lat.isSome && lab.lon.isSome && lab.svg.isSome
  else
    lab.lat.isSome && lab.lon.isSome && lab.text.isSome &&
      (if lab.style.getD "Label" = "Label" then
        (rgba_from_hex (lab.bg_hex.getD "#FFFFFF") (lab.bg_alpha.getD (mkRat 4 5))).isSome
      else true)

/-- A record with no keys at all: rendering it raises (`lab["text"]` is a
`KeyError`), so it exercises the render loop's `except` arm. -/
def badLabel : Label := {}

/-- A small concrete session state used by the witnesses: one stored label and
the app's default map center `(33.9239, -118.2620)`. -/
def sampleState : AppState :=
  { labels := [newClickTextLabel 1 2], last_clicked := none,
    address_coords := (mkRat 339239 10000, mkRat (-1182620) 10000),
    selected_label_idx := 0 }

/-- A `Filled (orange)`-styled record, used by the C1 and C9 witnesses. -/
def filledSample : Label :=
  { newClickTextLabel 1 2 with style := some "Filled (orange)",
                               fillcolor := some "#f6a500",
                               bg_hex := none, bg_alpha := none }

/-- The state produced by adding an `Info` icon to `sampleState` at `(3, 4)`:
the icon lookup succeeds, so the optional result is populated. -/
def sampleIconState : AppState :=
  (lastClickedAddIcon sampleState 3 4 "Info" 28 "#111111").getD sampleState

theorem clamp01_eq_max_min (a : ℚ) : clamp01 a = max 0 (min 1 a) := by
  unfold clamp01
  rcases lt_trichotomy a 0 with h | h | h
  · rw [if_pos h, max_eq_left]
    exact le_trans (min_le_right 1 a) h.le
  · subst h; norm_num
  · rw [if_neg (not_lt.mpr h.le)]
    by_cases h1 : 1 < a
    · rw [if_pos h1, min_eq_left h1.le, max_eq_right zero_le_one]
    · rw [if_neg h1, min_eq_right (not_lt.mp h1), max_eq_right h.le]


theorem rgba_clamp_bounds (a : ℚ) : 0 ≤ clamp01 a ∧ clamp01 a ≤ 1 := by
  unfold clamp01
  split_ifs with h1 h2
  · exact ⟨le_refl 0, zero_le_one⟩
  · exact ⟨zero_le_one, le_refl 1⟩
  · exact ⟨le_of_not_lt h1, le_of_not_lt h2⟩

theorem pyIndex_out_of_bounds (len : ℕ) (i : ℤ)
    (h : (len : ℤ) ≤ i ∨ i < -(len : ℤ)) : pyIndex len i = none := by
  unfold pyIndex pyResolve
  by_cases hi : i < 0
  · simp only [if_pos hi]
    exact if_neg (by omega)
  · simp only [if_neg hi]
    exact if_neg (by omega)

theorem pyIndex_in_bounds (len : ℕ) (i : ℕ) (h : i < len) :
    pyIndex len (i : ℤ) = some i := by
  unfold pyIndex pyResolve
  have hi : ¬((i : ℤ) < 0) := by omega
  simp only [if_neg hi]
  rw [if_pos (by omega)]
  simp

/-- C2 counterexample: `rgba_from_hex` does not treat an invalid (non-hex)
color string as white; `rgba_from_hex("#ZZZZZZ", 0.5)` raises `ValueError`
(modelled as `none`) instead of yielding `rgba(255,255,255,0.5)`. -/
theorem rgba_invalid_hex_raises :
    rgba_from_hex "#ZZZZZZ" (mkRat 1 2) = none ∧
    rgba_from_hex "#ZZZZZZ" (mkRat 1 2) ≠ some "rgba(255,255,255,0.5)" := by
  exact ⟨rfl, by decide⟩

/-- C2 (amended): `rgba_from_hex` clamps the opacity into `[0, 1]` (the
emitted alpha is always `clamp01 alpha`, and `clamp01` lands in `[0, 1]`),
treats a missing (empty) hex string as white, and on the claim's concrete
inputs: `rgba_from_hex("#FF0000", 1.5)` yields alpha `1.0` and
`rgba_from_hex("", 0.5)` yields `rgba(255,255,255,0.5)`; but a hex string
containing a non-hex-digit character raises `ValueError` (modelled `none`)
rather than being treated as white. -/
theorem rgba_from_hex_clamps_and_defaults :
    (∀ a : ℚ, 0 ≤ clamp01 a ∧ clamp01 a ≤ 1) ∧
    (∀ (hex : String) (a : ℚ) (r g b : ℕ),
      hex_to_rgb (if hex = "" then "#FFFFFF" else hex) = some (r, g, b) →
      rgba_from_hex hex a =
        some ("rgba(" ++ toString r ++ "," ++ toString g ++ "," ++ toString b ++ "," ++
          pyFloatRepr (clamp01 a) ++ ")")) ∧
    rgba_from_hex "#FF0000" (mkRat 3 2) = some "rgba(255,0,0,1.0)" ∧
    rgba_from_hex "" (mkRat 1 2) = some "rgba(255,255,255,0.5)" ∧
    rgba_from_hex "#ZZZZZZ" (mkRat 1 2) = none := by
  refine ⟨rgba_clamp_bounds, ?_, by decide, by decide, rfl⟩
  intro hex a r g b h
  unfold rgba_from_hex
  simp only [h]

/-- C2 witness: the structural clause applied at `hex = "#FFFFFF"`,
`a = 0.8`. -/
theorem rgba_from_hex_clamps_and_defaults_witness :
    rgba_from_hex "#FFFFFF" (mkRat 4 5) =
      some ("rgba(" ++ toString 255 ++ "," ++ toString 255 ++ "," ++ toString 255 ++ "," ++
        pyFloatRepr (clamp01 (mkRat 4 5)) ++ ")") :=
  rgba_from_hex_clamps_and_defaults.2.1 "#FFFFFF" (mkRat 4 5) 255 255 255 (by decide)

/-- C3 counterexample: on a one-element store, `removeAt`/`update` with the
negative index `-1` does not fail with `IndexError`: Python resolves in-range
negative indices from the end, so `pop(-1)` removes the last record (the
store's contents change) and the subscript resolves the last record. -/
theorem pop_negative_index_no_error :
    pyPop [newClickTextLabel 1 2] (-1) = Except.ok ([], newClickTextLabel 1 2) ∧
    pyGetItem [newClickTextLabel 1 2] (-1) = Except.ok (newClickTextLabel 1 2) :=
  ⟨rfl, rfl⟩

/-- C3 (amended): `removeAt` (`labels.pop(i)`) and `update` (the
`labels[i]` subscript the edit handler mutates through) fail with
`IndexError` — leaving the store untouched, since the exception is raised
before any mutation — exactly when the index is `>= len` or `< -len`;
a negative index in `[-len, -1]` instead resolves from the end of the list. -/
theorem store_out_of_bounds_index_error (xs : List Label) (i : ℤ)
    (h : (xs.length : ℤ) ≤ i ∨ i < -(xs.length : ℤ)) :
    pyPop xs i = Except.error "IndexError" ∧
    pyGetItem xs i = Except.error "IndexError" := by
  unfold pyPop pyGetItem
  rw [pyIndex_out_of_bounds _ _ h]
  exact ⟨rfl, rfl⟩

/-- C3 witness: index `5` on a one-element store. -/
theorem store_out_of_bounds_index_error_witness :
    pyPop [newClickTextLabel 1 2] 5 = Except.error "IndexError" ∧
    pyGetItem [newClickTextLabel 1 2] 5 = Except.error "IndexError" :=
  store_out_of_bounds_index_error [newClickTextLabel 1 2] 5 (by decide)

/-- C4 counterexample: for the app's default site "Samuel Gompers Middle
School", the filename supplied to the PNG export collaborator is the constant
`map_export_2x`, not the record's name with spaces replaced by underscores. -/
theorem export_filename_not_derived :
    exportFileNameFor "Samuel Gompers Middle School" ≠
      specFileNameFor "Samuel Gompers Middle School" := by
  decide

/-- C4 (amended): the filename supplied to the PNG export collaborator is the
fixed constant `"map_export_2x"` (line 290), independent of the selected
site record. -/
theorem export_filename_constant :
    (∀ siteName : String, exportFileNameFor siteName = "map_export_2x") ∧
    appExportControl.file_name = "map_export_2x" :=
  ⟨fun _ => rfl, rfl⟩

/-- C5: for every store and in-bounds index `i`, `removeAt(i)` (Python
`labels.pop(i)`) succeeds, returns the record that was at position `i`,
leaves a list shorter by exactly one in which positions before `i` are
unchanged and every later record has shifted down by one. -/
theorem pop_in_bounds_removes_and_shifts (xs : List Label) (i : ℕ)
    (h : i < xs.length) :
    ∃ a, xs[i]? = some a ∧
      pyPop xs (i : ℤ) = Except.ok (xs.eraseIdx i, a) ∧
      (xs.eraseIdx i).length = xs.length - 1 ∧
      (∀ j : ℕ, j < i → (xs.eraseIdx i)[j]? = xs[j]?) ∧
      (∀ j : ℕ, i ≤ j → (xs.eraseIdx i)[j]? = xs[j + 1]?) := by
  refine ⟨xs[i], List.getElem?_eq_getElem h, ?_, ?_, ?_, ?_⟩
  · unfold pyPop
    rw [pyIndex_in_bounds _ _ h]
    simp only [List.getElem?_eq_getElem h]
  · rw [List.length_eraseIdx, if_pos h]
  · intro j hj
    rw [List.getElem?_eraseIdx, if_pos hj]
  · intro j hj
    rw [List.getElem?_eraseIdx, if_neg (by omega)]

/-- C5 witness: popping index `1` from a three-element store removes exactly
the middle record. -/
theorem pop_in_bounds_removes_and_shifts_witness :
    pyPop [newClickTextLabel 1 2, badLabel, newClickTextLabel 3 4] 1 =
      Except.ok ([newClickTextLabel 1 2, newClickTextLabel 3 4], badLabel) := by
  obtain ⟨a, ha, hpop, -, -, -⟩ :=
    pop_in_bounds_removes_and_shifts
      [newClickTextLabel 1 2, badLabel, newClickTextLabel 3 4] 1 (by decide)
  have hab : badLabel = a := Option.some.inj ha
  subst hab
  exact hpop

/-- C1: the "Apply text changes" handler replaces exactly the form-provided
fields (`text`, `style`, `size`, `color` plus the style-dependent color
fields) and leaves `lat`, `lon`, `svg`, `base_svg_key` untouched; switching a
non-Filled record to `Filled (orange)` sets `fillcolor` and removes
`bg_hex`/`bg_alpha`, and switching a `Filled (orange)` record to a non-Filled
style sets `bg_hex`/`bg_alpha` and removes `fillcolor`. -/
theorem apply_text_changes_style_switch (lab : Label) (newText : String)
    (newSize : ℕ) (newTextColor newFillColor newBgHex : String) (newBgAlpha : ℚ) :
    (lab.style.getD "Label" ≠ "Filled (orange)" →
      applyTextChanges lab newText "Filled (orange)" newSize newTextColor
          newFillColor newBgHex newBgAlpha =
        { lab with text := some newText, style := some "Filled (orange)",
                   size := some newSize, color := some newTextColor,
                   fillcolor := some newFillColor, bg_hex := none, bg_alpha := none }) ∧
    (∀ newStyle : String, lab.style.getD "Label" = "Filled (orange)" →
      newStyle ≠ "Filled (orange)" →
      applyTextChanges lab newText newStyle newSize newTextColor
          newFillColor newBgHex newBgAlpha =
        { lab with text := some newText, style := some newStyle,
                   size := some newSize, color := some newTextColor,
                   bg_hex := some newBgHex, bg_alpha := some newBgAlpha,
                   fillcolor := none }) := by
  constructor
  · intro _
    unfold applyTextChanges
    rw [if_pos rfl]
  · intro newStyle _ hne
    unfold applyTextChanges
    rw [if_neg hne]

/-- C1 witness: a `Label`-styled record switched to `Filled (orange)`, and a
`Filled (orange)` record switched back to `Label`. -/
theorem apply_text_changes_style_switch_witness :
    applyTextChanges (newClickTextLabel 1 2) "Hi" "Filled (orange)" 18 "#222222"
        "#f6a500" "#FFFFFF" (mkRat 1 2) =
      { newClickTextLabel 1 2 with text := some "Hi",
                                   style := some "Filled (orange)",
                                   size := some 18, color := some "#222222",
                                   fillcolor := some "#f6a500",
                                   bg_hex := none, bg_alpha := none } ∧
    applyTextChanges filledSample
        "Hi" "Label" 18 "#222222" "#f6a500" "#FFFFFF" (mkRat 1 2) =
      { filledSample with text := some "Hi", style := some "Label",
                          size := some 18, color := some "#222222",
                          bg_hex := some "#FFFFFF",
                          bg_alpha := some (mkRat 1 2), fillcolor := none } :=
  ⟨(apply_text_changes_style_switch (newClickTextLabel 1 2) "Hi" 18 "#222222"
      "#f6a500" "#FFFFFF" (mkRat 1 2)).1 (by decide),
   (apply_text_changes_style_switch filledSample "Hi" 18
      "#222222" "#f6a500" "#FFFFFF" (mkRat 1 2)).2 "Label" (by decide) (by decide)⟩

theorem append_single_props {α : Type} (xs : List α) (r : α) :
    (xs ++ [r]).length = xs.length + 1 ∧ (xs ++ [r]).getLast? = some r ∧
    (xs ++ [r])[xs.length]? = some r ∧
    ∀ j : ℕ, j < xs.length → (xs ++ [r])[j]? = xs[j]? := by
  refine ⟨by simp, List.getLast?_concat xs, List.getElem?_concat_length xs r, ?_⟩
  intro j hj
  exact List.getElem?_append_left hj

/-- C6: both click handlers append the new record: it is the last element of
the resulting list, its assigned position is the previous length (the new
length minus one), and every previously stored record keeps its position. -/
theorem add_on_click_appends (s : AppState) (latc lonc : ℚ) (iconName : String)
    (iconSize : ℕ) (iconColor : String) :
    ((lastClickedAddLabel s latc lonc).labels =
        s.labels ++ [newClickTextLabel latc lonc] ∧
      (lastClickedAddLabel s latc lonc).labels.length = s.labels.length + 1 ∧
      (lastClickedAddLabel s latc lonc).labels.getLast? =
        some (newClickTextLabel latc lonc) ∧
      (lastClickedAddLabel s latc lonc).labels[s.labels.length]? =
        some (newClickTextLabel latc lonc) ∧
      ∀ j : ℕ, j < s.labels.length →
        (lastClickedAddLabel s latc lonc).labels[j]? = s.labels[j]?) ∧
    (∀ t : AppState,
      lastClickedAddIcon s latc lonc iconName iconSize iconColor = some t →
      ∃ r : Label, t.labels = s.labels ++ [r] ∧
        t.labels.length = s.labels.length + 1 ∧ t.labels.getLast? = some r ∧
        t.labels[s.labels.length]? = some r ∧
        ∀ j : ℕ, j < s.labels.length → t.labels[j]? = s.labels[j]?) := by
  constructor
  · obtain ⟨h1, h2, h3, h4⟩ :=
      append_single_props s.labels (newClickTextLabel latc lonc)
    exact ⟨rfl, h1, h2, h3, h4⟩
  · intro t ht
    unfold lastClickedAddIcon at ht
    cases hIcon : ICON_SVGS iconName with
    | none => rw [hIcon] at ht; cases ht
    | some svgRaw =>
      rw [hIcon] at ht
      cases ht
      obtain ⟨h1, h2, h3, h4⟩ :=
        append_single_props s.labels
          (newClickIcon latc lonc iconName iconSize iconColor svgRaw)
      exact ⟨_, rfl, h1, h2, h3, h4⟩

/-- C6 witness: on `sampleState`, the label handler keeps position `0` intact
and the icon handler grows the list by one. -/
theorem add_on_click_appends_witness :
    (lastClickedAddLabel sampleState 3 4).labels[0]? = sampleState.labels[0]? ∧
    sampleIconState.labels.length = sampleState.labels.length + 1 := by
  constructor
  · exact (add_on_click_appends sampleState 3 4 "Info" 28 "#111111").1.2.2.2.2 0
      (by decide)
  · obtain ⟨r, -, hlen, -⟩ :=
      (add_on_click_appends sampleState 3 4 "Info" 28 "#111111").2 sampleIconState rfl
    exact hlen

/-- C7: when the geocoding lookup fails — it finds nothing or raises (both
`except` arms of `geocode_address` catch and return `(None, None)`) — the
search handler leaves the whole session state, in particular `address_coords`
and the annotation store, unchanged, and surfaces at least one user-visible
message; no failure path escapes the handler. -/
theorem geocode_failure_preserves_state (s : AppState) (g : GeoOutcome)
    (h : (geocode_address g).1 = none) :
    (searchButtonStep s g).1 = s ∧
    (searchButtonStep s g).1.address_coords = s.address_coords ∧
    (searchButtonStep s g).1.labels = s.labels ∧
    (searchButtonStep s g).2 ≠ [] := by
  unfold searchButtonStep
  simp [h]

/-- C7 witness: a lookup that returns no coordinates leaves `sampleState`
untouched and emits a message. -/
theorem geocode_failure_preserves_state_witness :
    (searchButtonStep sampleState GeoOutcome.notFound).1 = sampleState ∧
    (searchButtonStep sampleState GeoOutcome.notFound).1.address_coords =
      sampleState.address_coords ∧
    (searchButtonStep sampleState GeoOutcome.notFound).1.labels =
      sampleState.labels ∧
    (searchButtonStep sampleState GeoOutcome.notFound).2 ≠ [] :=
  geocode_failure_preserves_state sampleState GeoOutcome.notFound rfl

theorem renderLabel_ok_of_wf (lab : Label) (h : wfLabel lab = true) :
    ∃ m, renderLabel lab = Except.ok m := by
  unfold wfLabel at h
  unfold renderLabel
  by_cases hs : lab.style = some "SVG_ICON"
  · rw [if_pos hs] at h ⊢
    simp only [Bool.and_eq_true] at h
    obtain ⟨⟨hla, hlo⟩, hsv⟩ := h
    obtain ⟨la, hla⟩ := Option.isSome_iff_exists.mp hla
    obtain ⟨lo, hlo⟩ := Option.isSome_iff_exists.mp hlo
    obtain ⟨sv, hsv⟩ := Option.isSome_iff_exists.mp hsv
    rw [hla, hlo, hsv]
    exact ⟨_, rfl⟩
  · rw [if_neg hs] at h ⊢
    simp only [Bool.and_eq_true] at h
    obtain ⟨⟨⟨hla, hlo⟩, htx⟩, hbg⟩ := h
    obtain ⟨la, hla⟩ := Option.isSome_iff_exists.mp hla
    obtain ⟨lo, hlo⟩ := Option.isSome_iff_exists.mp hlo
    obtain ⟨t, htx⟩ := Option.isSome_iff_exists.mp htx
    have hhs : ∃ hsx, textHtmlStyle lab = some hsx := by
      simp only [textHtmlStyle]
      by_cases hLc : lab.style.getD "Label" = "Label"
      · rw [if_pos hLc] at hbg ⊢
        obtain ⟨bg, hbgx⟩ := Option.isSome_iff_exists.mp hbg
        rw [hbgx]
        exact ⟨_, rfl⟩
      · rw [if_neg hLc]
        by_cases hOc : lab.style.getD "Label" = "Outlined"
        · rw [if_pos hOc]; exact ⟨_, rfl⟩
        · rw [if_neg hOc]; exact ⟨_, rfl⟩
    obtain ⟨hsx, hhsx⟩ := hhs
    rw [hhsx, htx, hla, hlo]
    exact ⟨_, rfl⟩

theorem newClick_records_wf (latc lonc : ℚ) (iconName : String) (iconSize : ℕ)
    (iconColor : String) (svgRaw : String) :
    wfLabel (newClickTextLabel latc lonc) = true ∧
    wfLabel (newClickIcon latc lonc iconName iconSize iconColor svgRaw) = true :=
  ⟨rfl, rfl⟩

theorem renderEventsFrom_ok_forall2 (idx : ℕ) (labels : List Label) :
    (∀ lab ∈ labels, wfLabel lab = true) →
    List.Forall₂
      (fun lab ev => ∃ m, renderLabel lab = Except.ok m ∧ ev = REvent.marker m)
      labels (renderEventsFrom idx labels) := by
  induction labels generalizing idx with
  | nil => intro _; exact List.Forall₂.nil
  | cons lab rest ih =>
    intro h
    obtain ⟨m, hm⟩ := renderLabel_ok_of_wf lab (h lab (List.mem_cons_self lab rest))
    have hrest : ∀ l ∈ rest, wfLabel l = true :=
      fun l hl => h l (List.mem_cons_of_mem lab hl)
    simp only [renderEventsFrom]
    rw [hm]
    exact List.Forall₂.cons ⟨m, hm, rfl⟩ (ih (idx + 1) hrest)

/-- C8: one render pass over a store of well-formed records (as every record
the app's own handlers create is) emits exactly one marker per stored record,
in insertion order — the events stand in an order-preserving one-to-one
correspondence with the records — and the render pass leaves the session
state, in particular the annotation list, unchanged. -/
theorem render_one_marker_per_record (s : AppState)
    (h : ∀ lab ∈ s.labels, wfLabel lab = true) :
    List.Forall₂
      (fun lab ev => ∃ m, renderLabel lab = Except.ok m ∧ ev = REvent.marker m)
      s.labels (create_folium_map s).1 ∧
    (create_folium_map s).1.length = s.labels.length ∧
    (create_folium_map s).2 = s := by
  have h2 := renderEventsFrom_ok_forall2 0 s.labels h
  exact ⟨h2, h2.length_eq.symm, rfl⟩

/-- C8 witness: rendering `sampleState` emits as many events as records and
leaves the state unchanged. -/
theorem render_one_marker_per_record_witness :
    (create_folium_map sampleState).1.length = sampleState.labels.length ∧
    (create_folium_map sampleState).2 = sampleState :=
  ⟨(render_one_marker_per_record sampleState (by decide)).2.1,
   (render_one_marker_per_record sampleState (by decide)).2.2⟩

/-- C9: every text-label record the app can put in the store satisfies the
mutual-exclusivity invariant — `Filled (orange)` records carry `fillcolor`
and neither `bg_hex` nor `bg_alpha`; `Label`/`Outlined` records carry both
`bg_hex` and `bg_alpha` and no `fillcolor` — both for the record the
click handler appends and for the result of any "Apply text changes" update
(whose style comes from the three-entry selectbox). -/
theorem text_label_records_keep_invariant (latc lonc : ℚ) (lab : Label)
    (newText newStyle : String) (newSize : ℕ)
    (newTextColor newFillColor newBgHex : String) (newBgAlpha : ℚ)
    (h : newStyle = "Filled (orange)" ∨ newStyle = "Label" ∨ newStyle = "Outlined") :
    textLabelInvariant (newClickTextLabel latc lonc) = true ∧
    textLabelInvariant
      (applyTextChanges lab newText newStyle newSize newTextColor newFillColor
        newBgHex newBgAlpha) = true := by
  refine ⟨rfl, ?_⟩
  rcases h with h | h | h <;> subst h <;> rfl

/-- C9 witness: the click-created record, and a `Filled (orange)` record
updated back to `Label` style. -/
theorem text_label_records_keep_invariant_witness :
    textLabelInvariant (newClickTextLabel 1 2) = true ∧
    textLabelInvariant
      (applyTextChanges filledSample "Hi" "Label" 16 "#111111" "#f6a500"
        "#FFFFFF" (mkRat 4 5)) = true :=
  text_label_records_keep_invariant 1 2 filledSample "Hi" "Label" 16 "#111111"
    "#f6a500" "#FFFFFF" (mkRat 4 5) (Or.inr (Or.inl rfl))

/-- C10: if rendering one record raises (`renderLabel` fails), the render
loop emits a warning naming that record's index in its place and still
renders every record before and after it: the loop's per-record `try`/`except`
means one malformed record never aborts the render pass. -/
theorem render_skips_bad_record (idx : ℕ) (pre post : List Label) (bad : Label)
    (e : String) (h : renderLabel bad = Except.error e) :
    renderEventsFrom idx (pre ++ bad :: post) =
      renderEventsFrom idx pre ++
        REvent.warning ("Error rendering label " ++ toString (idx + pre.length) ++
          ": " ++ e ++ ". Skipping...") ::
        renderEventsFrom (idx + pre.length + 1) post := by
  induction pre generalizing idx with
  | nil =>
    simp only [List.nil_append, List.length_nil, Nat.add_zero, renderEventsFrom]
    rw [h]
  | cons p ps ih =>
    simp only [List.cons_append, List.append_eq, renderEventsFrom, List.length_cons]
    rw [ih (idx + 1)]
    have e1 : idx + 1 + ps.length = idx + (ps.length + 1) := by omega
    rw [e1]

/-- C10 witness: a keyless record between two good ones yields its warning at
index `1` while both neighbours still render. -/
theorem render_skips_bad_record_witness :
    renderLabel badLabel = Except.error "KeyError" ∧
    renderEventsFrom 0 ([newClickTextLabel 1 2] ++ badLabel :: [newClickTextLabel 3 4]) =
      renderEventsFrom 0 [newClickTextLabel 1 2] ++
        REvent.warning ("Error rendering label " ++
          toString (0 + [newClickTextLabel 1 2].length) ++ ": " ++ "KeyError" ++
          ". Skipping...") ::
        renderEventsFrom (0 + [newClickTextLabel 1 2].length + 1) [newClickTextLabel 3 4] :=
  ⟨rfl, render_skips_bad_record 0 [newClickTextLabel 1 2] [newClickTextLabel 3 4]
    badLabel "KeyError" rfl⟩
